import Mathlib

/-!
Shallow embedding of the bevy_step_loader crate (src/lib.rs) together with
proofs about its specification.

Modelling conventions:
- f32/f64 scalar values are modelled as exact rationals; every concrete
  scalar appearing in a theorem below is exactly representable in f32, so
  the trunc-vs-round and comparison facts proved here hold verbatim for the
  compiled code.
- Calls into external crates (meshopt, opencascade, the foxtrot step and
  triangulate crates, bevy compute_normals) are modelled as explicit
  function parameters; where a claim needs the documented contract of such
  a call, the contract appears as an explicit hypothesis of the theorem.
  The code of this crate is embedded faithfully around those calls.
- Rust Result is Except; mutation of a &mut receiver is explicit state
  passing, returning the pair (result, new state).
-/

namespace BevyStep

/-- A 3-component vector, modelling [f32; 3] with exact rational entries. -/
structure Vec3 where
  x : ℚ
  y : ℚ
  z : ℚ
deriving DecidableEq

def Vec3.zero : Vec3 := ⟨0, 0, 0⟩

def Vec3.add (a b : Vec3) : Vec3 := ⟨a.x + b.x, a.y + b.y, a.z + b.z⟩

def Vec3.sub (a b : Vec3) : Vec3 := ⟨a.x - b.x, a.y - b.y, a.z - b.z⟩

def Vec3.cross (a b : Vec3) : Vec3 :=
  ⟨a.y * b.z - a.z * b.y, a.z * b.x - a.x * b.z, a.x * b.y - a.y * b.x⟩

/-- bevy_mesh VertexAttributeValues, restricted to the cases this crate
inspects: the Float32x3 encoding, and a catch-all for every other encoding
(the code only ever pattern-matches Float32x3 versus anything else). -/
inductive VertexAttributeValues where
  | Float32x3 : List Vec3 → VertexAttributeValues
  | Other : VertexAttributeValues
deriving DecidableEq

/-- bevy_mesh Indices. Index values are Nats; the U16 payload is already a
Nat list because the code only ever widens u16 to u32 (value-preserving). -/
inductive Indices where
  | U16 : List Nat → Indices
  | U32 : List Nat → Indices
deriving DecidableEq

/-- The u16-to-u32 widening conversion the code performs on extraction
(`indices.iter().map(|&i| i as u32)`); value-preserving, so identity here. -/
def Indices.toU32 : Indices → List Nat
  | Indices.U16 l => l
  | Indices.U32 l => l

/-- bevy Mesh, restricted to the state this crate reads and writes: the
position attribute, the normal attribute, and the index buffer. -/
structure Mesh where
  position : Option VertexAttributeValues
  normal : Option VertexAttributeValues
  indices : Option Indices
deriving DecidableEq

def Mesh.posList (m : Mesh) : List Vec3 :=
  match m.position with
  | some (VertexAttributeValues.Float32x3 l) => l
  | _ => []

def Mesh.normList (m : Mesh) : List Vec3 :=
  match m.normal with
  | some (VertexAttributeValues.Float32x3 l) => l
  | _ => []

def Mesh.indexList (m : Mesh) : List Nat :=
  match m.indices with
  | some i => i.toU32
  | none => []

/-- StepLoaderError from src/lib.rs. The io::Error payload is modelled as
its message string. OcctError exists only under the opencascade feature;
it is included unconditionally here and never produced by the foxtrot
path, matching the cfg structure. -/
inductive StepLoaderError where
  | IoError : String → StepLoaderError
  | OcctError : String → StepLoaderError
  | FoxtrotError : String → StepLoaderError
  | ParseError : String → StepLoaderError
deriving DecidableEq

/-- StepAsset from src/lib.rs: a wrapper holding the triangulated mesh. -/
structure StepAsset where
  mesh : Mesh
deriving DecidableEq

/-- Line 103 of src/lib.rs:
`let target_index_count = (original_indices.len() as f32 * ratio) as usize;`
Rust float-to-usize `as` truncates toward zero and saturates at 0 for
negative values; for a nonnegative product truncation equals the floor, and
for a negative product both truncate-then-saturate and floor-then-toNat
yield 0, so Int.toNat of the floor is an exact model. -/
def target_index_count (len : Nat) (r : ℚ) : Nat :=
  (⌊(len : ℚ) * r⌋).toNat

/-- The four structural ParseError messages produced by simplify_mesh and
optimise_mesh for malformed mesh input. -/
def structuralParseMsgs : List String :=
  ["No position attribute found", "Expected Float32x3 positions",
   "No indices found", "Failed to create vertex adapter"]

/-- The message of the error returned by simplify_mesh when the meshopt
feature is compiled out. The source string wraps the word meshopt in single
quotation marks; they are omitted here, the text is otherwise verbatim. -/
def featureDisabledMsg : String :=
  "Mesh simplification requires the meshopt feature to be enabled"

/-- StepAsset::simplify_mesh (meshopt feature enabled), lines 76-136.
simplifyFn models meshopt::simplify (arguments: index buffer, vertex data,
target index count, target error); adapterOk models success of
meshopt::VertexDataAdapter::new, which inspects only the vertex bytes.
State passing: returns (Result, updated self.mesh). -/
def simplify_mesh (simplifyFn : List Nat → List Vec3 → Nat → ℚ → List Nat)
    (adapterOk : List Vec3 → Bool) (m : Mesh) (r et : ℚ) :
    Except StepLoaderError Unit × Mesh :=
  match m.position with
  | none => (Except.error (StepLoaderError.ParseError "No position attribute found"), m)
  | some VertexAttributeValues.Other =>
      (Except.error (StepLoaderError.ParseError "Expected Float32x3 positions"), m)
  | some (VertexAttributeValues.Float32x3 positions) =>
    match m.indices with
    | none => (Except.error (StepLoaderError.ParseError "No indices found"), m)
    | some idx =>
      let original_indices := idx.toU32
      if adapterOk positions then
        let simplified_indices :=
          simplifyFn original_indices positions
            (target_index_count original_indices.length r) et
        (Except.ok (), { m with indices := some (Indices.U32 simplified_indices) })
      else
        (Except.error (StepLoaderError.ParseError "Failed to create vertex adapter"), m)

/-- StepAsset::simplify_mesh under cfg(not(feature = "meshopt")),
lines 142-145: unconditionally an error, receiver untouched. -/
def simplify_mesh_no_meshopt (m : Mesh) (_r _et : ℚ) :
    Except StepLoaderError Unit × Mesh :=
  (Except.error (StepLoaderError.ParseError featureDisabledMsg), m)

/-- optimise_mesh (meshopt feature), lines 270-295. optFn models
meshopt::optimise_vertex_cache_in_place as a function of the index buffer
and the vertex count. -/
def optimise_mesh (optFn : List Nat → Nat → List Nat) (m : Mesh) :
    Except StepLoaderError Unit × Mesh :=
  match m.position with
  | none => (Except.error (StepLoaderError.ParseError "No position attribute found"), m)
  | some VertexAttributeValues.Other =>
      (Except.error (StepLoaderError.ParseError "Expected Float32x3 positions"), m)
  | some (VertexAttributeValues.Float32x3 positions) =>
    match m.indices with
    | none => (Except.error (StepLoaderError.ParseError "No indices found"), m)
    | some idx =>
      let indices := idx.toU32
      if !indices.isEmpty && !positions.isEmpty then
        (Except.ok (),
          { m with indices := some (Indices.U32 (optFn indices positions.length)) })
      else
        (Except.ok (), m)

/-- The scratch file name used by triangulate_with_occt, line 197: a fixed
literal, not derived from the invocation or the input. -/
def occt_scratch_file_name : String := "temp_step_file.step"

/-- The full scratch path: temp_dir().join("temp_step_file.step"). -/
def occt_scratch_path (tempDir : String) : String :=
  tempDir ++ "/" ++ occt_scratch_file_name

/-- Filesystem mutations, for tracing what triangulate_with_occt does to
the scratch file. -/
inductive FileOp where
  | writeFile : String → List Nat → FileOp
  | deleteFile : String → FileOp
deriving DecidableEq

def FileOp.path : FileOp → String
  | FileOp.writeFile p _ => p
  | FileOp.deleteFile p => p

/-- The trace of filesystem mutations performed by triangulate_with_occt
(lines 193-229) on any control path: exactly one fs::write of the input
bytes to the fixed scratch path. The function contains no remove_file (or
any other deletion) call on any path: not after success, not on the
read_step error return, not on the fs::write error return. -/
def triangulate_with_occt_fileOps (tempDir : String) (step_data : List Nat) :
    List FileOp :=
  [FileOp.writeFile (occt_scratch_path tempDir) step_data]

/-- StepLoader::extensions, lines 157-159, verbatim. -/
def StepLoader.extensions : List String := ["step", "stp", "STEP", "STP"]

/-- A mesh with no attributes at all, used as a concrete input. -/
def meshNoAttrs : Mesh := ⟨none, none, none⟩

/-- Identity stand-in for meshopt::simplify, used to instantiate witnesses;
it trivially satisfies the length contract of the real routine. -/
def simplifyId : List Nat → List Vec3 → Nat → ℚ → List Nat :=
  fun idx _ _ _ => idx

/-- Identity stand-in for meshopt::optimise_vertex_cache_in_place, used to
instantiate witnesses; it trivially satisfies the reordering contract. -/
def optId : List Nat → Nat → List Nat := fun idx _ => idx

/-- Stand-in for meshopt::VertexDataAdapter::new always succeeding. -/
def adapterAlways : List Vec3 → Bool := fun _ => true

/-- A concrete one-triangle mesh used as a witness input. -/
def triMesh : Mesh :=
  { position := some (VertexAttributeValues.Float32x3
      [⟨0, 0, 0⟩, ⟨1, 0, 0⟩, ⟨0, 1, 0⟩]),
    normal := none,
    indices := some (Indices.U32 [0, 1, 2]) }

/-- Successive index triples of a triangle-list index buffer; a trailing
remainder shorter than three indices yields no triangle. -/
def triangles : List Nat → List (Nat × Nat × Nat)
  | a :: b :: c :: rest => (a, b, c) :: triangles rest
  | _ => []

/-- One cyclic rotation of a triangle (winding-preserving). -/
def rot1 (t : Nat × Nat × Nat) : Nat × Nat × Nat := (t.2.1, t.2.2, t.1)

/-- Lexicographic order on triangles, used only to pick canonical
rotation representatives. -/
def triLe (s t : Nat × Nat × Nat) : Bool :=
  decide (s.1 < t.1 ∨ (s.1 = t.1 ∧
    (s.2.1 < t.2.1 ∨ (s.2.1 = t.2.1 ∧ s.2.2 ≤ t.2.2))))

def minTri (s t : Nat × Nat × Nat) : Nat × Nat × Nat :=
  if triLe s t then s else t

/-- Canonical representative of a triangle modulo cyclic rotation: the
lexicographically least of its three rotations. -/
def canonTri (t : Nat × Nat × Nat) : Nat × Nat × Nat :=
  minTri t (minTri (rot1 t) (rot1 (rot1 t)))

/-- The multiset of triangles of an index buffer, each triangle taken up to
cyclic rotation; two buffers with equal triMultiset hold the same triangles
up to triangle order and rotation within a triangle. -/
def triMultiset (l : List Nat) : Multiset (Nat × Nat × Nat) :=
  ↑((triangles l).map canonTri)

/-- The three vertex indices of a triangle. -/
def triVerts (t : Nat × Nat × Nat) : List Nat := [t.1, t.2.1, t.2.2]

/-- Raw output of the foxtrot triangulator (triangulate4): a vertex list
and a triangle list, as read by lines 240-250. -/
structure FoxtrotMeshOut where
  verts : List Vec3
  triangles : List (Nat × Nat × Nat)

/-- Raw output of the OCCT Mesher (lines 203-211): a vertex list and a
flat index list. -/
structure OcctMeshOut where
  vertices : List Vec3
  indices : List Nat

/-- Line 246-250: `.flat_map(|t| [t.verts.x, t.verts.y, t.verts.z])`. -/
def flattenTris : List (Nat × Nat × Nat) → List Nat
  | [] => []
  | t :: ts => t.1 :: t.2.1 :: t.2.2 :: flattenTris ts

def addNormalAt (normals : List Vec3) (i : Nat) (n : Vec3) : List Vec3 :=
  normals.set i (Vec3.add (normals.getD i Vec3.zero) n)

def accumulateNormal (positions : List Vec3) (acc : List Vec3)
    (t : Nat × Nat × Nat) : List Vec3 :=
  let pa := positions.getD t.1 Vec3.zero
  let pb := positions.getD t.2.1 Vec3.zero
  let pc := positions.getD t.2.2 Vec3.zero
  let n := Vec3.cross (Vec3.sub pb pa) (Vec3.sub pc pa)
  addNormalAt (addNormalAt (addNormalAt acc t.1 n) t.2.1 n) t.2.2 n

/-- Models bevy Mesh::compute_normals on an indexed TriangleList mesh:
smooth shading, one normal per vertex, each the sum of the face normals of
the triangles incident to that vertex; a vertex in no triangle keeps the
zero vector. The final per-vertex normalization (an f32 sqrt) is omitted:
it does not change the buffer length and no claim depends on the normal
values themselves. -/
def smoothNormals (positions : List Vec3) (indices : List Nat) : List Vec3 :=
  (triangles indices).foldl (accumulateNormal positions)
    (List.replicate positions.length Vec3.zero)

def compute_normals (m : Mesh) : Mesh :=
  { m with normal := some (VertexAttributeValues.Float32x3
      (smoothNormals m.posList m.indexList)) }

/-- The assembly steps shared verbatim by both backends (lines 213-221 and
252-260): a fresh TriangleList mesh, insert_attribute of the positions,
insert_indices of the u32 indices, then compute_normals. -/
def assembleMesh (vertices : List Vec3) (indices : List Nat) : Mesh :=
  compute_normals
    { position := some (VertexAttributeValues.Float32x3 vertices),
      normal := none,
      indices := some (Indices.U32 indices) }

/-- The feature-gated tail of both backends (lines 223-228 and 262-267):
`#[cfg(feature = "meshopt")] { optimise_mesh(&mut bevy_mesh)?; }` followed
by `Ok(bevy_mesh)`. -/
def applyOptimisePass (meshoptOn : Bool)
    (optFn : List Nat → Nat → List Nat) (m1 : Mesh) :
    Except StepLoaderError Mesh :=
  if meshoptOn then
    match optimise_mesh optFn m1 with
    | (Except.error e, _) => Except.error e
    | (Except.ok _, m2) => Except.ok m2
  else Except.ok m1

/-- triangulate_with_foxtrot, lines 232-268. fb models the composition of
StepFile::strip_flatten, StepFile::parse and triangulate4 from the foxtrot
crates: a total function from the input bytes to a vertex/triangle pair
(none of those calls returns a Result, so this path has no failure exit of
its own); f64 coordinates pass through the exact-rational model. -/
def triangulate_with_foxtrot (fb : List Nat → FoxtrotMeshOut)
    (meshoptOn : Bool) (optFn : List Nat → Nat → List Nat)
    (step_data : List Nat) : Except StepLoaderError Mesh :=
  let tm := fb step_data
  applyOptimisePass meshoptOn optFn
    (assembleMesh tm.verts (flattenTris tm.triangles))

/-- triangulate_with_occt, lines 192-229. writeResult models the outcome
of fs::write of the scratch file; readStep models Shape::read_step composed
with Mesher::mesh (vertex f64-to-f32 casts and usize-to-u32 index casts are
value-preserving in the model). -/
def triangulate_with_occt (writeResult : Except String Unit)
    (readStep : List Nat → Except String OcctMeshOut)
    (meshoptOn : Bool) (optFn : List Nat → Nat → List Nat)
    (step_data : List Nat) : Except StepLoaderError Mesh :=
  match writeResult with
  | Except.error e => Except.error (StepLoaderError.IoError e)
  | Except.ok _ =>
    match readStep step_data with
    | Except.error e =>
        Except.error (StepLoaderError.OcctError
          ("OCCT failed to read STEP file: " ++ e))
    | Except.ok om =>
        applyOptimisePass meshoptOn optFn (assembleMesh om.vertices om.indices)

/-- triangulate_step_file, lines 181-190: compile-time backend dispatch,
modelled by the occtOn flag. -/
def triangulate_step_file (occtOn : Bool) (writeResult : Except String Unit)
    (readStep : List Nat → Except String OcctMeshOut)
    (fb : List Nat → FoxtrotMeshOut) (meshoptOn : Bool)
    (optFn : List Nat → Nat → List Nat) (step_data : List Nat) :
    Except StepLoaderError Mesh :=
  if occtOn then
    triangulate_with_occt writeResult readStep meshoptOn optFn step_data
  else
    triangulate_with_foxtrot fb meshoptOn optFn step_data

/-- StepLoader::load, lines 161-173: read_to_end (failure becomes IoError
through the From impl), then triangulate, then wrap in StepAsset. -/
def load (readResult : Except String (List Nat)) (occtOn : Bool)
    (writeResult : Except String Unit)
    (readStep : List Nat → Except String OcctMeshOut)
    (fb : List Nat → FoxtrotMeshOut) (meshoptOn : Bool)
    (optFn : List Nat → Nat → List Nat) : Except StepLoaderError StepAsset :=
  match readResult with
  | Except.error e => Except.error (StepLoaderError.IoError e)
  | Except.ok bytes =>
    match triangulate_step_file occtOn writeResult readStep fb meshoptOn
        optFn bytes with
    | Except.error e => Except.error e
    | Except.ok m => Except.ok ⟨m⟩

/-- The assembled-mesh invariants of the specification: index count
divisible by three, every index inside the position buffer, one normal per
position. -/
def meshInvariants (m : Mesh) : Prop :=
  m.indexList.length % 3 = 0 ∧
    (∀ i ∈ m.indexList, i < m.posList.length) ∧
    m.normList.length = m.posList.length

/-- A foxtrot backend stand-in producing one vertex and one degenerate
triangle. -/
def fb0 : List Nat → FoxtrotMeshOut := fun _ => ⟨[⟨1, 0, 0⟩], [(0, 0, 0)]⟩

/-- A foxtrot backend stand-in producing nothing, the observed foxtrot
output for an empty input buffer: an empty parse, zero vertices, zero
triangles. -/
def fbEmpty : List Nat → FoxtrotMeshOut := fun _ => ⟨[], []⟩

/-- An OCCT backend stand-in producing one proper triangle. -/
def occtB0 : List Nat → Except String OcctMeshOut :=
  fun _ => Except.ok ⟨[⟨0, 0, 0⟩, ⟨1, 0, 0⟩, ⟨0, 1, 0⟩], [0, 1, 2]⟩

/-- The mesh assembled from fb0 output: one vertex, one degenerate
triangle, zero normal. -/
def foxAsm0 : Mesh :=
  { position := some (VertexAttributeValues.Float32x3 [⟨1, 0, 0⟩]),
    normal := some (VertexAttributeValues.Float32x3 [⟨0, 0, 0⟩]),
    indices := some (Indices.U32 [0, 0, 0]) }

/-- The mesh assembled from occtB0 output: the unit right triangle with
face normal (0,0,1) accumulated at each vertex. -/
def occtAsm0 : Mesh :=
  { position := some (VertexAttributeValues.Float32x3
      [⟨0, 0, 0⟩, ⟨1, 0, 0⟩, ⟨0, 1, 0⟩]),
    normal := some (VertexAttributeValues.Float32x3
      [⟨0, 0, 1⟩, ⟨0, 0, 1⟩, ⟨0, 0, 1⟩]),
    indices := some (Indices.U32 [0, 1, 2]) }

/-- The mesh assembled from empty backend output. -/
def emptyAssembledMesh : Mesh :=
  { position := some (VertexAttributeValues.Float32x3 []),
    normal := some (VertexAttributeValues.Float32x3 []),
    indices := some (Indices.U32 []) }

/- ------------------------------------------------------------------ -/
/- Theorems -/
/- ------------------------------------------------------------------ -/

/-- C1: the claim states the OCCT scratch file has a per-invocation unique
path and is deleted on every exit path. The code refutes both parts: the
scratch path is the same fixed name for every invocation and every input,
and no deletion is ever performed on any control path. -/
theorem C1_occt_scratch_fixed_and_never_deleted :
    (∀ (tempDir : String) (d1 d2 : List Nat),
      (triangulate_with_occt_fileOps tempDir d1).map FileOp.path =
        (triangulate_with_occt_fileOps tempDir d2).map FileOp.path)
    ∧ (∀ (tempDir : String) (data : List Nat) (p : String),
        FileOp.deleteFile p ∉ triangulate_with_occt_fileOps tempDir data) := by
  constructor
  · intro tempDir d1 d2
    rfl
  · intro tempDir data p
    simp [triangulate_with_occt_fileOps]

/-- C2 counterexample: with the meshopt feature compiled out, simplify_mesh
returns the ParseError variant, the very variant the claim says it must be
distinguishable from. -/
theorem C2_counterexample_returns_ParseError :
    (simplify_mesh_no_meshopt meshNoAttrs 1 0).fst =
      Except.error (StepLoaderError.ParseError featureDisabledMsg) := rfl

/-- C2 amended: with the meshopt feature compiled out, simplify_mesh always
returns a typed error (never a silent no-op: the result is an error and the
mesh is untouched), namely the ParseError variant carrying a dedicated
message that differs from every structural parse-failure message; it is
distinguishable by message only, not by variant. -/
theorem C2_feature_disabled_typed_error :
    ∀ (m : Mesh) (r et : ℚ),
      simplify_mesh_no_meshopt m r et =
        (Except.error (StepLoaderError.ParseError featureDisabledMsg), m)
      ∧ featureDisabledMsg ∉ structuralParseMsgs := by
  intro m r et
  exact ⟨rfl, by decide⟩

/-- C7 counterexample: at original_index_count = 12 and ratio = 5/16 (both
sides exactly representable in f32, product 3.75), the code computes target
index count 3 (truncation) while the nearest integer is 4. -/
theorem C7_counterexample_truncates_not_rounds :
    target_index_count 12 (5 / 16 : ℚ) = 3 ∧
      round ((12 : ℚ) * (5 / 16)) = 4 := by
  constructor
  · have h : ⌊(12 : ℚ) * (5 / 16)⌋ = 3 := by norm_num
    show (⌊(12 : ℚ) * (5 / 16)⌋).toNat = 3
    rw [h]
    rfl
  · norm_num [round_eq]

/-- C7 amended: simplify_mesh computes its target index count as the
truncation toward zero of original_index_count * ratio — for a nonnegative
ratio, the greatest integer not exceeding the product — not the nearest
integer. -/
theorem C7_target_is_truncation :
    ∀ (len : Nat) (r : ℚ), 0 ≤ r →
      ((target_index_count len r : ℚ) ≤ (len : ℚ) * r ∧
        (len : ℚ) * r < (target_index_count len r : ℚ) + 1) := by
  intro len r hr
  have hx : (0 : ℚ) ≤ (len : ℚ) * r := mul_nonneg (by positivity) hr
  have hfl : (0 : ℤ) ≤ ⌊(len : ℚ) * r⌋ := Int.floor_nonneg.mpr hx
  have h1 : ((⌊(len : ℚ) * r⌋.toNat : ℤ)) = ⌊(len : ℚ) * r⌋ :=
    Int.toNat_of_nonneg hfl
  have h2 : ((target_index_count len r : ℚ)) = ((⌊(len : ℚ) * r⌋ : ℤ) : ℚ) := by
    unfold target_index_count
    exact_mod_cast congrArg (fun z : ℤ => (z : ℚ)) h1
  constructor
  · rw [h2]
    exact Int.floor_le _
  · rw [h2]
    exact Int.lt_floor_add_one _

/-- C7 witness: the amended truncation bounds instantiated at 12 and 5/16. -/
theorem C7_target_is_truncation_witness :
    (0 : ℚ) ≤ 5 / 16 ∧
      ((target_index_count 12 (5 / 16) : ℚ) ≤ (12 : ℚ) * (5 / 16) ∧
        (12 : ℚ) * (5 / 16) < (target_index_count 12 (5 / 16) : ℚ) + 1) :=
  ⟨by norm_num, C7_target_is_truncation 12 (5 / 16) (by norm_num)⟩

/-- C9 counterexample: the mixed casing "Step" is not in the extension list
returned by StepLoader::extensions, so not every casing is recognized. -/
theorem C9_counterexample_mixed_case_missing :
    "Step" ∉ StepLoader.extensions := by
  decide

/-- C9 amended: StepLoader::extensions contains exactly the four literal
strings step, stp, STEP, STP — the all-lowercase and all-uppercase casings
only, not every casing of the two extensions. -/
theorem C9_extensions_exact :
    ∀ s : String, s ∈ StepLoader.extensions ↔
      s = "step" ∨ s = "stp" ∨ s = "STEP" ∨ s = "STP" := by
  intro s
  simp [StepLoader.extensions]

/-- C3: whenever simplify_mesh (in either build configuration) or
optimise_mesh returns an error, the mesh held by the caller is returned
unchanged: positions, indices and normals are exactly as before the call. -/
theorem C3_error_leaves_mesh_unchanged :
    (∀ (sf : List Nat → List Vec3 → Nat → ℚ → List Nat)
        (a : List Vec3 → Bool) (m : Mesh) (r et : ℚ) (e : StepLoaderError),
      (simplify_mesh sf a m r et).fst = Except.error e →
      (simplify_mesh sf a m r et).snd = m)
    ∧ (∀ (m : Mesh) (r et : ℚ) (e : StepLoaderError),
        (simplify_mesh_no_meshopt m r et).fst = Except.error e →
        (simplify_mesh_no_meshopt m r et).snd = m)
    ∧ (∀ (optFn : List Nat → Nat → List Nat) (m : Mesh) (e : StepLoaderError),
        (optimise_mesh optFn m).fst = Except.error e →
        (optimise_mesh optFn m).snd = m) := by
  refine ⟨?_, ?_, ?_⟩
  · intro sf a m r et e h
    obtain ⟨pos, nor, ind⟩ := m
    rcases pos with _ | pv
    · rfl
    · rcases pv with ps | _
      · rcases ind with _ | idx
        · rfl
        · cases ha : a ps with
          | false => simp [simplify_mesh, ha]
          | true => simp [simplify_mesh, ha] at h
      · rfl
  · intro m r et e _
    rfl
  · intro optFn m e h
    obtain ⟨pos, nor, ind⟩ := m
    rcases pos with _ | pv
    · rfl
    · rcases pv with ps | _
      · rcases ind with _ | idx
        · rfl
        · by_cases hb : (!idx.toU32.isEmpty && !ps.isEmpty) = true
          · simp [optimise_mesh, hb] at h
          · simp [optimise_mesh, hb] at h
      · rfl

/-- C3 witness: on a mesh with no attributes every transform errors and the
returned state equals the input mesh. -/
theorem C3_witness :
    ((simplify_mesh simplifyId adapterAlways meshNoAttrs 1 0).snd = meshNoAttrs)
    ∧ ((simplify_mesh_no_meshopt meshNoAttrs 1 0).snd = meshNoAttrs)
    ∧ ((optimise_mesh optId meshNoAttrs).snd = meshNoAttrs) :=
  ⟨C3_error_leaves_mesh_unchanged.1 simplifyId adapterAlways meshNoAttrs 1 0
      (StepLoaderError.ParseError "No position attribute found") rfl,
    C3_error_leaves_mesh_unchanged.2.1 meshNoAttrs 1 0
      (StepLoaderError.ParseError featureDisabledMsg) rfl,
    C3_error_leaves_mesh_unchanged.2.2 optId meshNoAttrs
      (StepLoaderError.ParseError "No position attribute found") rfl⟩

/-- C5: if the external simplifier never returns more indices than it was
given (the documented meshopt::simplify contract), then a successful
simplify_mesh call never increases the triangle count (index count divided
by 3) of the mesh, for every ratio and error threshold including 1.0. -/
theorem C5_simplify_never_increases_triangles :
    ∀ (sf : List Nat → List Vec3 → Nat → ℚ → List Nat)
      (a : List Vec3 → Bool) (m m2 : Mesh) (r et : ℚ),
      (∀ idx ps tc te, (sf idx ps tc te).length ≤ idx.length) →
      simplify_mesh sf a m r et = (Except.ok (), m2) →
      m2.indexList.length / 3 ≤ m.indexList.length / 3 := by
  intro sf a m m2 r et hsf heq
  obtain ⟨pos, nor, ind⟩ := m
  rcases pos with _ | pv
  · simp [simplify_mesh] at heq
  · rcases pv with ps | _
    · rcases ind with _ | idx
      · simp [simplify_mesh] at heq
      · cases ha : a ps with
        | false => simp [simplify_mesh, ha] at heq
        | true =>
          simp [simplify_mesh, ha] at heq
          subst heq
          simp only [Mesh.indexList, Indices.toU32]
          exact Nat.div_le_div_right (hsf _ _ _ _)
    · simp [simplify_mesh] at heq

/-- C5 witness: the identity simplifier on the one-triangle mesh; the
simplified mesh is the mesh itself, so the triangle count bound holds. -/
theorem C5_witness :
    triMesh.indexList.length / 3 ≤ triMesh.indexList.length / 3 :=
  C5_simplify_never_increases_triangles simplifyId adapterAlways triMesh
    triMesh 1 0 (fun _ _ _ _ => le_refl _) rfl

/-- C10: simplify_mesh performs no range validation of ratio or
error_threshold: the result component of the call (success or the exact
error value) is identical for any two parameter pairs, and for a mesh with
Float32x3 positions and indices present whose vertex data the adapter
accepts, the call succeeds for every ratio and threshold. -/
theorem C10_params_do_not_affect_errors :
    (∀ (sf : List Nat → List Vec3 → Nat → ℚ → List Nat)
        (a : List Vec3 → Bool) (m : Mesh) (r1 et1 r2 et2 : ℚ),
      (simplify_mesh sf a m r1 et1).fst = (simplify_mesh sf a m r2 et2).fst)
    ∧ (∀ (sf : List Nat → List Vec3 → Nat → ℚ → List Nat)
        (a : List Vec3 → Bool) (ps : List Vec3) (idx : Indices)
        (m : Mesh) (r et : ℚ),
        m.position = some (VertexAttributeValues.Float32x3 ps) →
        m.indices = some idx →
        a ps = true →
        (simplify_mesh sf a m r et).fst = Except.ok ()) := by
  constructor
  · intro sf a m r1 et1 r2 et2
    obtain ⟨pos, nor, ind⟩ := m
    rcases pos with _ | pv
    · rfl
    · rcases pv with ps | _
      · rcases ind with _ | idx
        · rfl
        · cases ha : a ps with
          | false => simp [simplify_mesh, ha]
          | true => simp [simplify_mesh, ha]
      · rfl
  · intro sf a ps idx m r et hpos hind ha
    obtain ⟨pos, nor, ind⟩ := m
    simp only at hpos hind
    subst hpos hind
    simp [simplify_mesh, ha]

/-- C10 witness: on the one-triangle mesh with an accepting adapter, the
call succeeds at the concrete parameters 1 and 0. -/
theorem C10_witness :
    (simplify_mesh simplifyId adapterAlways triMesh 1 0).fst = Except.ok () :=
  C10_params_do_not_affect_errors.2 simplifyId adapterAlways
    [⟨0, 0, 0⟩, ⟨1, 0, 0⟩, ⟨0, 1, 0⟩] (Indices.U32 [0, 1, 2]) triMesh 1 0
    rfl rfl rfl

theorem mem_triVerts_rot1 (x : Nat) (t : Nat × Nat × Nat) :
    x ∈ triVerts (rot1 t) ↔ x ∈ triVerts t := by
  obtain ⟨a, b, c⟩ := t
  simp only [triVerts, rot1, List.mem_cons, List.not_mem_nil, or_false]
  tauto

theorem mem_triVerts_canonTri (x : Nat) (t : Nat × Nat × Nat) :
    x ∈ triVerts (canonTri t) ↔ x ∈ triVerts t := by
  by_cases h1 : triLe (rot1 t) (rot1 (rot1 t)) = true
  · by_cases h2 : triLe t (rot1 t) = true
    · simp [canonTri, minTri, h1, h2]
    · simp [canonTri, minTri, h1, h2, mem_triVerts_rot1]
  · by_cases h2 : triLe t (rot1 (rot1 t)) = true
    · simp [canonTri, minTri, h1, h2]
    · simp [canonTri, minTri, h1, h2, mem_triVerts_rot1]

theorem mem_iff_mem_triangles :
    ∀ (l : List Nat), l.length % 3 = 0 →
      ∀ x : Nat, x ∈ l ↔ ∃ t ∈ triangles l, x ∈ triVerts t
  | [] => by intro _ x; simp [triangles]
  | [a] => by intro h; simp at h
  | [a, b] => by intro h; simp at h
  | a :: b :: c :: rest => by
    intro h x
    have h3 : rest.length % 3 = 0 := by
      simp only [List.length_cons] at h
      omega
    have ih := mem_iff_mem_triangles rest h3 x
    simp only [triangles, List.mem_cons]
    rw [ih]
    constructor
    · rintro (rfl | rfl | rfl | ⟨t, ht, hx⟩)
      · exact ⟨_, Or.inl rfl, by simp [triVerts]⟩
      · exact ⟨_, Or.inl rfl, by simp [triVerts]⟩
      · exact ⟨_, Or.inl rfl, by simp [triVerts]⟩
      · exact ⟨t, Or.inr ht, hx⟩
    · rintro ⟨t, rfl | ht, hx⟩
      · simp only [triVerts, List.mem_cons, List.not_mem_nil, or_false] at hx
        tauto
      · exact Or.inr (Or.inr (Or.inr ⟨t, ht, hx⟩))

theorem mem_triangles_of_eq_triMultiset (l l2 : List Nat) (x : Nat)
    (hm : triMultiset l = triMultiset l2)
    (h : ∃ t ∈ triangles l, x ∈ triVerts t) :
    ∃ t2 ∈ triangles l2, x ∈ triVerts t2 := by
  obtain ⟨t, ht, hx⟩ := h
  have h1 : canonTri t ∈ ((triangles l2).map canonTri) := by
    have h0 : canonTri t ∈ ((triangles l).map canonTri) :=
      List.mem_map_of_mem canonTri ht
    have h0m := Multiset.mem_coe.mpr h0
    rw [show (↑((triangles l).map canonTri) : Multiset (Nat × Nat × Nat)) =
      triMultiset l from rfl, hm] at h0m
    exact Multiset.mem_coe.mp h0m
  obtain ⟨t2, ht2, hc⟩ := List.mem_map.mp h1
  refine ⟨t2, ht2, ?_⟩
  rw [← mem_triVerts_canonTri x t2, hc, mem_triVerts_canonTri]
  exact hx

theorem length_addNormalAt (ns : List Vec3) (i : Nat) (n : Vec3) :
    (addNormalAt ns i n).length = ns.length := by
  simp [addNormalAt]

theorem length_accumulateNormal (ps acc : List Vec3) (t : Nat × Nat × Nat) :
    (accumulateNormal ps acc t).length = acc.length := by
  simp [accumulateNormal, length_addNormalAt]

theorem length_foldl_accumulate (ps : List Vec3)
    (ts : List (Nat × Nat × Nat)) :
    ∀ acc : List Vec3,
      (ts.foldl (accumulateNormal ps) acc).length = acc.length := by
  induction ts with
  | nil => intro acc; rfl
  | cons t ts ih =>
    intro acc
    rw [List.foldl_cons, ih, length_accumulateNormal]

theorem length_smoothNormals (ps : List Vec3) (idx : List Nat) :
    (smoothNormals ps idx).length = ps.length := by
  unfold smoothNormals
  rw [length_foldl_accumulate, List.length_replicate]

theorem length_flattenTris (ts : List (Nat × Nat × Nat)) :
    (flattenTris ts).length = 3 * ts.length := by
  induction ts with
  | nil => rfl
  | cons t ts ih =>
    simp only [flattenTris, List.length_cons, ih]
    omega

theorem mem_flattenTris (x : Nat) (ts : List (Nat × Nat × Nat)) :
    x ∈ flattenTris ts ↔ ∃ t ∈ ts, x ∈ triVerts t := by
  induction ts with
  | nil => simp [flattenTris]
  | cons t ts ih =>
    simp only [flattenTris, List.mem_cons, ih, triVerts]
    constructor
    · rintro (rfl | rfl | rfl | ⟨u, hu, hx⟩)
      · exact ⟨t, Or.inl rfl, by simp⟩
      · exact ⟨t, Or.inl rfl, by simp⟩
      · exact ⟨t, Or.inl rfl, by simp⟩
      · exact ⟨u, Or.inr hu, hx⟩
    · rintro ⟨u, rfl | hu, hx⟩
      · simp only [List.mem_cons, List.not_mem_nil, or_false] at hx
        tauto
      · exact Or.inr (Or.inr (Or.inr ⟨u, hu, hx⟩))

theorem optimise_mesh_ok_on_assembled (optFn : List Nat → Nat → List Nat)
    (ps : List Vec3) (nor : Option VertexAttributeValues) (idx : Indices) :
    (optimise_mesh optFn
      ⟨some (VertexAttributeValues.Float32x3 ps), nor, some idx⟩).fst =
      Except.ok () := by
  by_cases hb : (!(Indices.toU32 idx).isEmpty && !ps.isEmpty) = true
  · simp [optimise_mesh, hb]
  · simp [optimise_mesh, hb]

theorem applyOptimisePass_assembled_ok (meshoptOn : Bool)
    (optFn : List Nat → Nat → List Nat) (v : List Vec3) (i : List Nat) :
    ∃ m, applyOptimisePass meshoptOn optFn (assembleMesh v i) =
      Except.ok m := by
  cases meshoptOn with
  | false => exact ⟨_, rfl⟩
  | true =>
    have hok : (optimise_mesh optFn (assembleMesh v i)).fst = Except.ok () :=
      optimise_mesh_ok_on_assembled optFn v _ (Indices.U32 i)
    rcases hres : optimise_mesh optFn (assembleMesh v i) with ⟨res, m2⟩
    rw [hres] at hok
    cases res with
    | error e => simp at hok
    | ok u =>
      refine ⟨m2, ?_⟩
      simp [applyOptimisePass, hres]

theorem meshInvariants_assembleMesh (v : List Vec3) (i : List Nat)
    (h3 : i.length % 3 = 0) (hb : ∀ x ∈ i, x < v.length) :
    meshInvariants (assembleMesh v i) := by
  refine ⟨?_, ?_, ?_⟩
  · simpa [assembleMesh, compute_normals, Mesh.indexList,
      Indices.toU32] using h3
  · intro j hj
    simp only [assembleMesh, compute_normals, Mesh.indexList, Mesh.posList,
      Indices.toU32] at hj ⊢
    exact hb j hj
  · simp [assembleMesh, compute_normals, Mesh.indexList, Mesh.posList,
      Mesh.normList, Indices.toU32, length_smoothNormals]

/-- C4: under the documented contract of the external vertex-cache
optimizer — it returns an index buffer of the same length holding the same
triangles up to triangle order and cyclic rotation within each triangle —
optimise_mesh leaves the position and normal buffers entirely unchanged,
leaves the index-buffer length (hence the triangle count) unchanged,
preserves the multiset of triangles taken up to rotation, and hence the
optimised indices reference exactly the same set of vertices. -/
theorem C4_optimise_preserves_geometry :
    ∀ (optFn : List Nat → Nat → List Nat) (m : Mesh),
      (∀ idx n, (optFn idx n).length = idx.length ∧
        triMultiset (optFn idx n) = triMultiset idx) →
      ((optimise_mesh optFn m).snd.position = m.position ∧
        (optimise_mesh optFn m).snd.normal = m.normal)
      ∧ (optimise_mesh optFn m).snd.indexList.length = m.indexList.length
      ∧ triMultiset (optimise_mesh optFn m).snd.indexList =
          triMultiset m.indexList
      ∧ (m.indexList.length % 3 = 0 →
          ∀ x, x ∈ (optimise_mesh optFn m).snd.indexList ↔
            x ∈ m.indexList) := by
  intro optFn m hopt
  obtain ⟨pos, nor, ind⟩ := m
  rcases pos with _ | pv
  · exact ⟨⟨rfl, rfl⟩, rfl, rfl, fun _ _ => Iff.rfl⟩
  · rcases pv with ps | _
    · rcases ind with _ | idx
      · exact ⟨⟨rfl, rfl⟩, rfl, rfl, fun _ _ => Iff.rfl⟩
      · by_cases hb : (!(Indices.toU32 idx).isEmpty && !ps.isEmpty) = true
        · have hres : (optimise_mesh optFn
              ⟨some (VertexAttributeValues.Float32x3 ps), nor, some idx⟩).snd =
              ⟨some (VertexAttributeValues.Float32x3 ps), nor,
                some (Indices.U32 (optFn (Indices.toU32 idx) ps.length))⟩ := by
            simp [optimise_mesh, hb]
          rw [hres]
          obtain ⟨hlen, hms⟩ := hopt (Indices.toU32 idx) ps.length
          refine ⟨⟨rfl, rfl⟩, ?_, ?_, ?_⟩
          · show (optFn (Indices.toU32 idx) ps.length).length =
              (Indices.toU32 idx).length
            exact hlen
          · show triMultiset (optFn (Indices.toU32 idx) ps.length) =
              triMultiset (Indices.toU32 idx)
            exact hms
          · intro h3 x
            have h3o : (Indices.toU32 idx).length % 3 = 0 := h3
            have h3n : (optFn (Indices.toU32 idx) ps.length).length % 3 = 0 := by
              rw [hlen]; exact h3o
            show x ∈ optFn (Indices.toU32 idx) ps.length ↔
              x ∈ Indices.toU32 idx
            rw [mem_iff_mem_triangles _ h3n x, mem_iff_mem_triangles _ h3o x]
            constructor
            · exact mem_triangles_of_eq_triMultiset _ _ x hms
            · exact mem_triangles_of_eq_triMultiset _ _ x hms.symm
        · have hres : (optimise_mesh optFn
              ⟨some (VertexAttributeValues.Float32x3 ps), nor, some idx⟩).snd =
              ⟨some (VertexAttributeValues.Float32x3 ps), nor, some idx⟩ := by
            simp [optimise_mesh, hb]
          rw [hres]
          exact ⟨⟨rfl, rfl⟩, rfl, rfl, fun _ _ => Iff.rfl⟩
    · exact ⟨⟨rfl, rfl⟩, rfl, rfl, fun _ _ => Iff.rfl⟩

/-- C4 witness: the identity optimizer on the one-triangle mesh; all
preservation conclusions hold at the concrete input, with the referenced
vertex set checked at index 0. -/
theorem C4_witness :
    (optimise_mesh optId triMesh).snd.position = triMesh.position ∧
    (optimise_mesh optId triMesh).snd.normal = triMesh.normal ∧
    (optimise_mesh optId triMesh).snd.indexList.length =
      triMesh.indexList.length ∧
    triMultiset (optimise_mesh optId triMesh).snd.indexList =
      triMultiset triMesh.indexList ∧
    (0 ∈ (optimise_mesh optId triMesh).snd.indexList ↔
      0 ∈ triMesh.indexList) :=
  ⟨(C4_optimise_preserves_geometry optId triMesh
      (fun _ _ => ⟨rfl, rfl⟩)).1.1,
    (C4_optimise_preserves_geometry optId triMesh
      (fun _ _ => ⟨rfl, rfl⟩)).1.2,
    (C4_optimise_preserves_geometry optId triMesh
      (fun _ _ => ⟨rfl, rfl⟩)).2.1,
    (C4_optimise_preserves_geometry optId triMesh
      (fun _ _ => ⟨rfl, rfl⟩)).2.2.1,
    (C4_optimise_preserves_geometry optId triMesh
      (fun _ _ => ⟨rfl, rfl⟩)).2.2.2 rfl 0⟩

/-- C6: every mesh produced by a successful triangulation call satisfies
the assembled-mesh invariants — index count divisible by three, every
index inside the position buffer, one normal per position — for either
backend (modelled in the configuration without the optional meshopt pass,
whose geometry preservation is the subject of C4), under the contracts of
the external triangulators: the foxtrot triangulator emits triangles whose
vertex references lie inside its vertex buffer, and the OCCT mesher emits
a flat triangle list of in-range indices. -/
theorem C6_triangulation_output_invariants :
    (∀ (fb : List Nat → FoxtrotMeshOut) (optFn : List Nat → Nat → List Nat)
        (data : List Nat) (m : Mesh),
      (∀ t ∈ (fb data).triangles,
        t.1 < (fb data).verts.length ∧ t.2.1 < (fb data).verts.length ∧
          t.2.2 < (fb data).verts.length) →
      triangulate_with_foxtrot fb false optFn data = Except.ok m →
      meshInvariants m)
    ∧ (∀ (writeResult : Except String Unit)
        (readStep : List Nat → Except String OcctMeshOut)
        (optFn : List Nat → Nat → List Nat) (data : List Nat)
        (om : OcctMeshOut) (m : Mesh),
      readStep data = Except.ok om →
      om.indices.length % 3 = 0 →
      (∀ i ∈ om.indices, i < om.vertices.length) →
      triangulate_with_occt writeResult readStep false optFn data =
        Except.ok m →
      meshInvariants m) := by
  constructor
  · intro fb optFn data m hbound heq
    have hred : triangulate_with_foxtrot fb false optFn data =
        Except.ok (assembleMesh (fb data).verts
          (flattenTris (fb data).triangles)) := rfl
    rw [hred] at heq
    have hm := (Except.ok.inj heq).symm
    subst hm
    apply meshInvariants_assembleMesh
    · rw [length_flattenTris]
      omega
    · intro x hx
      rw [mem_flattenTris] at hx
      obtain ⟨t, ht, hv⟩ := hx
      obtain ⟨h1, h2, h3⟩ := hbound t ht
      simp only [triVerts, List.mem_cons, List.not_mem_nil, or_false] at hv
      rcases hv with rfl | rfl | rfl
      · exact h1
      · exact h2
      · exact h3
  · intro writeResult readStep optFn data om m hread h3 hb heq
    rcases writeResult with e | u
    · simp [triangulate_with_occt] at heq
    · have hred : triangulate_with_occt (Except.ok u) readStep false optFn
          data = Except.ok (assembleMesh om.vertices om.indices) := by
        simp [triangulate_with_occt, hread, applyOptimisePass]
      rw [hred] at heq
      have hm := (Except.ok.inj heq).symm
      subst hm
      exact meshInvariants_assembleMesh _ _ h3 hb

/-- C6 witness: both backend conclusions at concrete backend stand-ins
with in-range outputs; the assembled meshes satisfy the invariants. -/
theorem C6_witness : meshInvariants foxAsm0 ∧ meshInvariants occtAsm0 :=
  ⟨C6_triangulation_output_invariants.1 fb0 optId [] foxAsm0
      (by decide)
      (by
        show Except.ok (assembleMesh [⟨1, 0, 0⟩] (flattenTris [(0, 0, 0)])) =
          Except.ok foxAsm0
        norm_num [assembleMesh, compute_normals, Mesh.posList, Mesh.indexList,
          Indices.toU32, flattenTris, smoothNormals, triangles,
          accumulateNormal, addNormalAt, List.getD, Vec3.cross, Vec3.sub,
          Vec3.add, Vec3.zero, foxAsm0]),
    C6_triangulation_output_invariants.2 (Except.ok ()) occtB0 optId []
      ⟨[⟨0, 0, 0⟩, ⟨1, 0, 0⟩, ⟨0, 1, 0⟩], [0, 1, 2]⟩ occtAsm0 rfl
      (by decide) (by decide)
      (by
        show Except.ok (assembleMesh [⟨0, 0, 0⟩, ⟨1, 0, 0⟩, ⟨0, 1, 0⟩]
            [0, 1, 2]) = Except.ok occtAsm0
        norm_num [assembleMesh, compute_normals, Mesh.posList, Mesh.indexList,
          Indices.toU32, smoothNormals, triangles, accumulateNormal,
          addNormalAt, List.getD, Vec3.cross, Vec3.sub, Vec3.add, Vec3.zero,
          occtAsm0, List.replicate, List.set])⟩

/-- C8: REFUTED for the foxtrot backend build: triangulate_with_foxtrot
wraps whatever the foxtrot triangulator yields in Ok for every input — the
path has no failure exit, and the optional optimise pass also always
succeeds on an assembled mesh — so an empty byte buffer cannot yield a
failure result; with the observed foxtrot output for empty input (an empty
parse, zero vertices and triangles), StepLoader::load returns a successful
StepAsset holding a zero-triangle mesh. -/
theorem C8_foxtrot_build_never_fails :
    (∀ (fb : List Nat → FoxtrotMeshOut) (meshoptOn : Bool)
        (optFn : List Nat → Nat → List Nat) (data : List Nat),
      ∃ m : Mesh, triangulate_step_file false (Except.ok ()) occtB0 fb
        meshoptOn optFn data = Except.ok m)
    ∧ load (Except.ok []) false (Except.ok ()) occtB0 fbEmpty false optId =
        Except.ok ⟨emptyAssembledMesh⟩
    ∧ emptyAssembledMesh.indexList.length = 0 := by
  refine ⟨?_, rfl, rfl⟩
  intro fb meshoptOn optFn data
  obtain ⟨m, hm⟩ := applyOptimisePass_assembled_ok meshoptOn optFn
    (fb data).verts (flattenTris (fb data).triangles)
  exact ⟨m, hm⟩

end BevyStep
